import Mathlib

/-!
Shallow embedding of the Polaroid Studio layout-and-compositing engine.

Real-valued quantities (millimetres, normalized crop coordinates, aspect
ratios) are modelled as rationals; the source computes them with JS number
arithmetic, and every claim checked here is stated at the level of exact
arithmetic, with explicit tolerances where the spec states them.
-/

/-- Normalized crop rectangle (types.ts `Photo.crop`): coordinates in [0,1]
relative to the original image. -/
structure Crop where
  x : ℚ
  y : ℚ
  width : ℚ
  height : ℚ
deriving DecidableEq

/-- The Crop invariants from the data model (spec §3; types.ts comment:
normalized coordinates 0-1): the box stays inside the unit square and is
non-degenerate. -/
def cropInvariant (c : Crop) : Prop :=
  0 ≤ c.x ∧ 0 ≤ c.y ∧ c.x + c.width ≤ 1 ∧ c.y + c.height ≤ 1 ∧
    0 < c.width ∧ 0 < c.height

instance (c : Crop) : Decidable (cropInvariant c) := by
  unfold cropInvariant; infer_instance

/-- App.tsx `calculateCrop`: centered cover crop for a target aspect ratio,
with a 0.01 tolerance shortcut returning the full image. -/
def calculateCrop (imgWidth imgHeight targetRatio : ℚ) : Crop :=
  let imgRatio := imgWidth / imgHeight
  if |imgRatio - targetRatio| < 1/100 then
    ⟨0, 0, 1, 1⟩
  else if targetRatio < imgRatio then
    let w := targetRatio / imgRatio
    ⟨(1 - w) / 2, 0, w, 1⟩
  else
    let h := imgRatio / targetRatio
    ⟨0, (1 - h) / 2, 1, h⟩

/-- types.ts `Settings.orientation`. -/
inductive PageOrient where
  | portrait
  | landscape
deriving DecidableEq

/-- types.ts `Settings.style`. -/
inductive CardStyle where
  | polaroid
  | minimal
  | borderless
deriving DecidableEq

/-- types.ts `AspectRatio` keys. -/
inductive AspectKey where
  | sq1x1
  | wide4x3
  | tall3x4
  | wide16x9
deriving DecidableEq

/-- types.ts `ASPECT_RATIOS` lookup table. -/
def ratioValue : AspectKey → ℚ
  | .sq1x1 => 1
  | .wide4x3 => 4/3
  | .tall3x4 => 3/4
  | .wide16x9 => 16/9

/-- types.ts `Settings`. `paperSize` is kept as a string key because the
paper-size resolution is a runtime string lookup (settings are also restored
from persisted JSON, so unrecognized keys can reach it). -/
structure Settings where
  paperSize : String
  customPaperWidth : ℚ
  customPaperHeight : ℚ
  orient : PageOrient
  rows : ℕ
  cols : ℕ
  gapMm : ℚ
  paddingHorizontalMm : ℚ
  paddingVerticalMm : ℚ
  style : CardStyle
  captionSpaceMm : ℚ
  aspectKey : AspectKey
  showCaptions : Bool
  fontFamily : String
  backgroundColor : String
  borderColor : String
  captionFontSize : ℚ
deriving DecidableEq

/-- App.tsx `INITIAL_SETTINGS`. -/
def INITIAL_SETTINGS : Settings where
  paperSize := "A4"
  customPaperWidth := 210
  customPaperHeight := 297
  orient := .portrait
  rows := 3
  cols := 2
  gapMm := 10
  paddingHorizontalMm := 15
  paddingVerticalMm := 15
  style := .polaroid
  captionSpaceMm := 25
  aspectKey := .sq1x1
  showCaptions := true
  fontFamily := "Shadows Into Light"
  backgroundColor := "#ffffff00"
  borderColor := "#eeeeee"
  captionFontSize := 12

/-- types.ts `PAPER_SIZES` lookup table, as the partial map a string key
selects from (`none` models the `undefined` an unrecognized key produces). -/
def PAPER_SIZES (key : String) : Option (ℚ × ℚ) :=
  if key = "A4" then some (210, 297)
  else if key = "Letter" then some (2159/10, 2794/10)
  else if key = "4x6" then some (1016/10, 1524/10)
  else if key = "Custom" then some (210, 297)
  else none

/-- pdfService.ts lines 9-16 (identical in `generatePDF`, `generatePNG` and
GridPreview): paper dimension resolution. Custom takes the user dimensions;
any other key goes through the `PAPER_SIZES` lookup, whose miss (reading
`paper.widthMm` of `undefined`) aborts the export before anything is drawn. -/
def resolvePaperMm (s : Settings) : Option (ℚ × ℚ) :=
  if s.paperSize = "Custom" then some (s.customPaperWidth, s.customPaperHeight)
  else PAPER_SIZES s.paperSize

/-- pdfService.ts lines 20-28: orientation normalization of the resolved
paper dimensions into the final document (width, height). -/
def normalizeDoc (o : PageOrient) (wh : ℚ × ℚ) : ℚ × ℚ :=
  let d1 := min wh.1 wh.2
  let d2 := max wh.1 wh.2
  match o with
  | .portrait => (d1, d2)
  | .landscape => (d2, d1)

/-- A rectangle in the page plane (mm, or px for the raster exporter). -/
structure Rect where
  x : ℚ
  y : ℚ
  w : ℚ
  h : ℚ
deriving DecidableEq

/-- pdfService.ts lines 40-60 (and identically GridPreview lines 47-51,
84-85, generatePNG lines 246-249, 278-279): the grid cell rectangle at
row r, column c of a document of size docW × docH. -/
def gridCellRect (docW docH padH padV gap : ℚ) (rows cols r c : ℕ) : Rect :=
  let availableWidth := docW - padH * 2 - gap * ((cols : ℚ) - 1)
  let availableHeight := docH - padV * 2 - gap * ((rows : ℚ) - 1)
  let cellW := availableWidth / cols
  let cellH := availableHeight / rows
  ⟨padH + c * (cellW + gap), padV + r * (cellH + gap), cellW, cellH⟩

/-- The full cell-rectangle pipeline of the exporters and the preview:
resolve paper, normalize orientation, lay out the grid cell. -/
def cellRectOfSettings (s : Settings) (r c : ℕ) : Option Rect :=
  (resolvePaperMm s).map fun wh =>
    let doc := normalizeDoc s.orient wh
    gridCellRect doc.1 doc.2 s.paddingHorizontalMm s.paddingVerticalMm
      s.gapMm s.rows s.cols r c

/-- pdfService.ts lines 50-53 / 274-276 and GridPreview lines 77-82:
page, row, column of the photo at flat index i (ipp = rows · cols). -/
def photoPage (ipp i : ℕ) : ℕ := i / ipp

/-- Row within the page of the photo at flat index i. -/
def photoRow (cols ipp i : ℕ) : ℕ := (i % ipp) / cols

/-- Column within the page of the photo at flat index i. -/
def photoCol (cols ipp i : ℕ) : ℕ := (i % ipp) % cols

/-- pdfService.ts `generatePDF` page emission: the document starts with one
page, and `doc.addPage()` runs exactly when photo index n has
`itemIndex === 0 && pageIndex > 0`. `pdfPageCount ipp n` is the number of
pages in the document after the n photos are processed. -/
def pdfPageCount (ipp : ℕ) : ℕ → ℕ
  | 0 => 1
  | n + 1 =>
    pdfPageCount ipp n + (if n % ipp = 0 ∧ 0 < n / ipp then 1 else 0)

/-- pdfService.ts line 252 (and GridPreview line 54):
`totalPages = Math.ceil(Math.max(photos.length, 1) / itemsPerPage)`. -/
def pngPageCount (ipp n : ℕ) : ℕ := (max n 1 + (ipp - 1)) / ipp

/-- The aspect-ratio contain fit shared verbatim by pdfService lines
110-129, generatePNG lines 326-340 and GridPreview lines 175-192: fit a
box of the given ratio into the area at (imgX, imgY) of size
areaW × areaH, centered on the slack axis. -/
def aspectFit (imgX imgY areaW areaH ratio : ℚ) : Rect :=
  if ratio < areaW / areaH then
    ⟨imgX + (areaW - areaH * ratio) / 2, imgY, areaH * ratio, areaH⟩
  else
    ⟨imgX, imgY + (areaH - areaW / ratio) / 2, areaW, areaW / ratio⟩

/-- pdfService.ts lines 82-129: image placement inside a cell of size
cw × ch, relative to the cell origin. Polaroid: 5% side margin, bottom
band `captionSpaceMm || 25`. -/
def pdfImageRect (s : Settings) (cw ch : ℚ) : Rect :=
  match s.style with
  | .polaroid =>
    let innerPadding := cw * (5/100)
    let bottomPadding := if s.captionSpaceMm = 0 then 25 else s.captionSpaceMm
    aspectFit innerPadding innerPadding (cw - innerPadding * 2)
      (ch - (innerPadding + bottomPadding)) (ratioValue s.aspectKey)
  | .minimal =>
    aspectFit 3 3 (cw - 3 * 2) (ch - 3 * 2) (ratioValue s.aspectKey)
  | .borderless =>
    aspectFit 0 0 cw ch (ratioValue s.aspectKey)

/-- GridPreview.tsx `PhotoCell` lines 151-192: image placement inside a
cell, relative to the cell origin. Polaroid: 6% side margin, bottom band
`Math.max(20, heightMm * 0.20)`. -/
def previewImageRect (s : Settings) (cw ch : ℚ) : Rect :=
  match s.style with
  | .polaroid =>
    let innerPadding := cw * (6/100)
    let bottomPadding := max 20 (ch * (20/100))
    aspectFit innerPadding innerPadding (cw - innerPadding * 2)
      (ch - (innerPadding + bottomPadding)) (ratioValue s.aspectKey)
  | .minimal =>
    aspectFit 3 3 (cw - 3 * 2) (ch - 3 * 2) (ratioValue s.aspectKey)
  | .borderless =>
    aspectFit 0 0 cw ch (ratioValue s.aspectKey)

/-- generatePNG lines 301-340: image placement in raster pixels for a cell
of cw × ch millimetres, relative to the cell origin, at SCALE = 8 px/mm. -/
def pngImageRect (s : Settings) (cw ch : ℚ) : Rect :=
  let SCALE : ℚ := 8
  let w := cw * SCALE
  let h := ch * SCALE
  match s.style with
  | .polaroid =>
    let innerPaddingMm := cw * (5/100)
    let bottomPaddingMm := if s.captionSpaceMm = 0 then 25 else s.captionSpaceMm
    aspectFit (innerPaddingMm * SCALE) (innerPaddingMm * SCALE)
      (w - innerPaddingMm * 2 * SCALE)
      (h - (innerPaddingMm + bottomPaddingMm) * SCALE)
      (ratioValue s.aspectKey)
  | .minimal =>
    aspectFit (3 * SCALE) (3 * SCALE) (w - 3 * 2 * SCALE) (h - 3 * 2 * SCALE)
      (ratioValue s.aspectKey)
  | .borderless =>
    aspectFit 0 0 w h (ratioValue s.aspectKey)

/-- Sidebar.tsx CropModal `handleMouseMove`, drag branch (lines 766-775):
translate by the normalized delta, clamping x to [0, 1 − width] and y to
[0, 1 − height]. -/
def applyDrag (c : Crop) (dx dy : ℚ) : Crop :=
  { c with
    x := max 0 (min (c.x + dx) (1 - c.width))
    y := max 0 (min (c.y + dy) (1 - c.height)) }

/-- Sidebar.tsx CropModal `handleMouseMove`, resize branch, maximum clamps
(lines 777-788): width grows by the delta, height follows through
k = imgAspect / targetRatio; clamp to the right edge recomputing height,
then to the bottom edge recomputing width. Returns (newWidth, newHeight)
before the minimum-width floor. -/
def resizeClamped (c : Crop) (k dx : ℚ) : ℚ × ℚ :=
  let nw0 := c.width + dx
  let p1 := if 1 < c.x + nw0 then (1 - c.x, (1 - c.x) * k) else (nw0, nw0 * k)
  if 1 < c.y + p1.2 then ((1 - c.y) / k, 1 - c.y) else p1

/-- Sidebar.tsx CropModal `handleMouseMove`, full resize branch (lines
776-792): the maximum clamps followed by the minimum-width floor
`if (newWidth < 0.1) newWidth = 0.1`, which changes only the width. -/
def applyResize (c : Crop) (k dx : ℚ) : Crop :=
  let p := resizeClamped c k dx
  { c with
    width := if p.1 < 1/10 then 1/10 else p.1
    height := p.2 }

/-- GridPreview.tsx line 215: `crop.width > 0 ? 1 / crop.width : 1`. -/
def bgScaleX (c : Crop) : ℚ := if 0 < c.width then 1 / c.width else 1

/-- GridPreview.tsx line 216: `crop.height > 0 ? 1 / crop.height : 1`. -/
def bgScaleY (c : Crop) : ℚ := if 0 < c.height then 1 / c.height else 1

/-- GridPreview.tsx line 218:
`crop.width >= 1 ? 0 : (crop.x / (1 - crop.width)) * 100`. -/
def bgPosX (c : Crop) : ℚ :=
  if 1 ≤ c.width then 0 else c.x / (1 - c.width) * 100

/-- GridPreview.tsx line 219, the vertical analogue. -/
def bgPosY (c : Crop) : ℚ :=
  if 1 ≤ c.height then 0 else c.y / (1 - c.height) * 100

/-- pdfService.ts line 64: the transparent background sentinel check. -/
def isTransparentBg (bg : String) : Bool :=
  bg = "#ffffff00" || bg = "transparent"

/-- The drawing primitives `generatePDF` emits for one cell. -/
inductive DrawOp where
  | bgRect
  | borderStroke
  | image
  | captionText (text : String)
deriving DecidableEq

/-- A photo as the exporter sees it after awaiting its load: the loaded
natural width (0 when decoding failed, pdfService lines 133-140), the
caption text and the crop. -/
structure PhotoM where
  loadedWidth : ℕ
  caption : String
  crop : Crop
deriving DecidableEq

/-- pdfService.ts lines 62-212, one loop iteration: the ops drawn for one
photo. Background fill (plus a light border when the background is pure
white) when not transparent and not borderless; the image only when the
loaded width is positive; the caption only for polaroid style with
captions enabled and non-empty text. -/
def cellOps (s : Settings) (ph : PhotoM) : List DrawOp :=
  (if ¬ isTransparentBg s.backgroundColor ∧ s.style ≠ CardStyle.borderless then
    DrawOp.bgRect ::
      (if s.backgroundColor.toLower = "#ffffff" ∨ s.backgroundColor.toLower = "#fff"
       then [DrawOp.borderStroke] else [])
  else []) ++
  (if 0 < ph.loadedWidth then [DrawOp.image] else []) ++
  (if s.showCaptions = true ∧ ph.caption ≠ "" ∧ s.style = CardStyle.polaroid
   then [DrawOp.captionText ph.caption] else [])

/-- pdfService.ts `generatePDF` photo loop lines 48-213: every photo is
processed in order; a failed load never breaks the loop (the await always
resolves and the image guard only skips the draw). -/
def generatePDFOps (s : Settings) (photos : List PhotoM) : List (List DrawOp) :=
  photos.map (cellOps s)

/-- The failure mode of `generatePDF` / `generatePNG` when the paper-size
key is not in the lookup table (spec §7 ConfigError; at runtime the read of
`paper.widthMm` on `undefined` throws before the document is created). -/
inductive ExportError where
  | configError
deriving DecidableEq

/-- pdfService.ts `generatePDF` as a fallible run: paper resolution comes
first (lines 6-16) and its failure aborts the export before any page
geometry or drawing; on success the normalized document dimensions and the
per-photo draw ops are produced. -/
def generatePDFRun (s : Settings) (photos : List PhotoM) :
    Except ExportError ((ℚ × ℚ) × List (List DrawOp)) :=
  match resolvePaperMm s with
  | none => .error .configError
  | some wh => .ok (normalizeDoc s.orient wh, generatePDFOps s photos)

/-- Default photo value used with `List.getD`. -/
def defaultPhotoM : PhotoM := ⟨0, "", ⟨0, 0, 1, 1⟩⟩

/-- geminiService.ts `generateCaption`. The network call is a parameter:
`Except.error` is a thrown/unreachable call, `Except.ok none` a response
with no text. A missing credential short-circuits to a placeholder; a
caught error returns the empty string; otherwise the trimmed text with
empty fallback. -/
def generateCaption (apiKey : String) (svc : Except Unit (Option String)) :
    String :=
  if apiKey = "" then "Legenda (API Key Missing)"
  else
    match svc with
    | .error _ => ""
    | .ok none => ""
    | .ok (some t) => let r := t.trim; if r = "" then "" else r

/-- Unfolding of the Crop invariants on a structure literal. -/
theorem cropInvariant_mk (x y w h : ℚ) :
    cropInvariant ⟨x, y, w, h⟩ ↔
      0 ≤ x ∧ 0 ≤ y ∧ x + w ≤ 1 ∧ y + h ≤ 1 ∧ 0 < w ∧ 0 < h :=
  Iff.rfl

/-- C2 counterexample: for image 1005 × 1000 and target ratio 1 the 0.01
tolerance shortcut of `calculateCrop` returns the full-image crop, whose
aspect ratio in source pixels is 1.005 — off the target by 0.005, far more
than the claimed 1e-6. -/
theorem C2_cex_tolerance_shortcut :
    0 < (1005 : ℚ) ∧ 0 < (1000 : ℚ) ∧ 0 < (1 : ℚ) ∧
    ¬ |((calculateCrop 1005 1000 1).width * 1005) /
        ((calculateCrop 1005 1000 1).height * 1000) - 1| ≤ 1/1000000 := by
  refine ⟨by norm_num, by norm_num, by norm_num, ?_⟩
  unfold calculateCrop
  norm_num [abs_lt, le_abs, lt_abs]

/-- C2 (amended): for positive image dimensions and target ratio,
`calculateCrop` always satisfies the Crop bounds invariants; and whenever
the image ratio is at least 0.01 away from the target (so the full-image
shortcut does not fire), the crop aspect ratio in source pixels equals the
target ratio exactly. Inside the 0.01 band the full-image crop is returned
and the aspect error can reach 0.01, exceeding the claimed 1e-6 bound. -/
theorem C2_autoFitCrop_invariant_and_aspect (imgW imgH t : ℚ)
    (hw : 0 < imgW) (hh : 0 < imgH) (ht : 0 < t) :
    cropInvariant (calculateCrop imgW imgH t) ∧
    (1/100 ≤ |imgW / imgH - t| →
      ((calculateCrop imgW imgH t).width * imgW) /
        ((calculateCrop imgW imgH t).height * imgH) = t) := by
  have hr : 0 < imgW / imgH := div_pos hw hh
  have hW : imgW ≠ 0 := ne_of_gt hw
  have hH : imgH ≠ 0 := ne_of_gt hh
  unfold calculateCrop
  dsimp only
  split_ifs with h1 h2
  · refine ⟨by rw [cropInvariant_mk]; norm_num, fun hge => absurd h1 (not_lt.mpr hge)⟩
  · have hwpos : 0 < t / (imgW / imgH) := div_pos ht hr
    have hwlt : t / (imgW / imgH) < 1 := (div_lt_one hr).mpr h2
    refine ⟨?_, ?_⟩
    · rw [cropInvariant_mk]
      refine ⟨by linarith, le_refl 0, by linarith, by norm_num, hwpos, by norm_num⟩
    · intro _
      show t / (imgW / imgH) * imgW / (1 * imgH) = t
      rw [one_mul]
      field_simp
  · have hle : imgW / imgH ≤ t := not_lt.mp h2
    have hhpos : 0 < imgW / imgH / t := div_pos hr ht
    have hhle : imgW / imgH / t ≤ 1 := (div_le_one ht).mpr hle
    refine ⟨?_, ?_⟩
    · rw [cropInvariant_mk]
      refine ⟨le_refl 0, by linarith, by norm_num, by linarith, by norm_num, hhpos⟩
    · intro _
      show 1 * imgW / (imgW / imgH / t * imgH) = t
      rw [one_mul]
      rw [div_eq_iff (by positivity)]
      field_simp
      ring

/-- C2 witness: image 4000 × 3000 at target ratio 1 (the spec scenario):
the amended theorem instantiated, with the shortcut hypothesis discharged. -/
theorem C2_witness :
    cropInvariant (calculateCrop 4000 3000 1) ∧
    ((calculateCrop 4000 3000 1).width * 4000) /
      ((calculateCrop 4000 3000 1).height * 3000) = 1 := by
  have h := C2_autoFitCrop_invariant_and_aspect 4000 3000 1 (by norm_num)
    (by norm_num) (by norm_num)
  exact ⟨h.1, h.2 (by norm_num [le_abs])⟩

/-- C3 counterexample: from the valid crop (x 0.95, y 0.95, w 0.05,
h 0.05) with k = imgAspect/targetRatio = 1, a resize delta of −0.5 drives
the computed width below the floor; the floor then raises the width to 0.1
without recomputing the height, leaving height −0.45 and x + width = 1.05,
violating the invariants. -/
theorem C3_cex_min_floor_breaks_invariant :
    cropInvariant ⟨19/20, 19/20, 1/20, 1/20⟩ ∧
    ¬ cropInvariant (applyResize ⟨19/20, 19/20, 1/20, 1/20⟩ 1 (-(1/2))) := by
  constructor
  · rw [cropInvariant_mk]; norm_num
  · unfold applyResize resizeClamped
    norm_num [cropInvariant]

/-- C3 (amended): for any crop satisfying the invariants, drag preserves
the invariants for EVERY delta, including overflow deltas (saturating
clamp); resize preserves them for every delta for which the width after
the two maximum clamps is at least the 0.1 floor; and the produced width
always respects the 0.1 minimum, for every delta. When the computed width
falls below 0.1 the floor overwrites the width alone, without recomputing
the height or re-clamping against the right edge, and the invariants can
fail. -/
theorem C3_clamp_preserves_invariant (c : Crop) (k dx dy : ℚ)
    (hc : cropInvariant c) (hk : 0 < k) :
    cropInvariant (applyDrag c dx dy) ∧
    (1/10 ≤ (resizeClamped c k dx).1 →
      cropInvariant (applyResize c k dx)) ∧
    1/10 ≤ (applyResize c k dx).width := by
  obtain ⟨hx0, hy0, hxw, hyh, hw0, hh0⟩ := hc
  have hw1 : c.width ≤ 1 := by linarith
  have hh1 : c.height ≤ 1 := by linarith
  have hdrag : cropInvariant (applyDrag c dx dy) := by
    unfold applyDrag cropInvariant
    dsimp only
    have hxle : max 0 (min (c.x + dx) (1 - c.width)) ≤ 1 - c.width :=
      max_le (by linarith) (min_le_right _ _)
    have hyle : max 0 (min (c.y + dy) (1 - c.height)) ≤ 1 - c.height :=
      max_le (by linarith) (min_le_right _ _)
    exact ⟨le_max_left _ _, le_max_left _ _, by linarith, by linarith, hw0, hh0⟩
  refine ⟨hdrag, ?_, ?_⟩
  swap
  · unfold applyResize
    dsimp only
    by_cases hlt : (resizeClamped c k dx).1 < 1/10
    · rw [if_pos hlt]
    · rw [if_neg hlt]
      exact not_lt.mp hlt
  intro hmin
  have hkey : 0 < (resizeClamped c k dx).2 ∧
      c.x + (resizeClamped c k dx).1 ≤ 1 ∧
      c.y + (resizeClamped c k dx).2 ≤ 1 := by
    by_cases hA : 1 < c.x + (c.width + dx)
    · by_cases hB : 1 < c.y + (1 - c.x) * k
      · have hpeq : resizeClamped c k dx = ((1 - c.y) / k, 1 - c.y) := by
          unfold resizeClamped
          dsimp only
          rw [if_pos hA]
          dsimp only
          rw [if_pos hB]
        rw [hpeq]
        dsimp only
        have h2 : (1 - c.y) / k < 1 - c.x := by
          rw [div_lt_iff₀ hk]; linarith
        exact ⟨by linarith, by linarith, by linarith⟩
      · have hpeq : resizeClamped c k dx = (1 - c.x, (1 - c.x) * k) := by
          unfold resizeClamped
          dsimp only
          rw [if_pos hA]
          dsimp only
          rw [if_neg hB]
        rw [hpeq]
        dsimp only
        have hxlt : 0 < 1 - c.x := by linarith
        exact ⟨by positivity, by linarith, by linarith⟩
    · have hAle : c.x + (c.width + dx) ≤ 1 := not_lt.mp hA
      by_cases hB : 1 < c.y + (c.width + dx) * k
      · have hpeq : resizeClamped c k dx = ((1 - c.y) / k, 1 - c.y) := by
          unfold resizeClamped
          dsimp only
          rw [if_neg hA]
          dsimp only
          rw [if_pos hB]
        rw [hpeq]
        dsimp only
        have h2 : (1 - c.y) / k < c.width + dx := by
          rw [div_lt_iff₀ hk]; linarith
        exact ⟨by linarith, by linarith, by linarith⟩
      · have hpeq : resizeClamped c k dx =
            (c.width + dx, (c.width + dx) * k) := by
          unfold resizeClamped
          dsimp only
          rw [if_neg hA]
          dsimp only
          rw [if_neg hB]
        rw [hpeq] at hmin ⊢
        dsimp only at hmin ⊢
        have hBle : c.y + (c.width + dx) * k ≤ 1 := not_lt.mp hB
        have hwdx : 0 < c.width + dx := by linarith
        exact ⟨by positivity, by linarith, by linarith⟩
  have hweq : (applyResize c k dx).width = (resizeClamped c k dx).1 := by
    unfold applyResize
    dsimp only
    rw [if_neg (not_lt.mpr hmin)]
  have hheq : (applyResize c k dx).height = (resizeClamped c k dx).2 := rfl
  have hxeq : (applyResize c k dx).x = c.x := rfl
  have hyeq : (applyResize c k dx).y = c.y := rfl
  unfold cropInvariant
  rw [hweq, hheq, hxeq, hyeq]
  exact ⟨hx0, hy0, hkey.2.1, hkey.2.2, by linarith [hmin], hkey.1⟩

/-- C3 witness: the half-size top-left crop with k = 1, at an overflow
drag delta (−5, 7) — which saturates to x 0, y 1/2 and also drives the
clamped resize width below the floor — and at a resize delta 1/8 whose
clamped width 5/8 is above the floor, discharging the inner hypothesis. -/
theorem C3_witness :
    (cropInvariant (applyDrag ⟨0, 0, 1/2, 1/2⟩ (-5) 7) ∧
      (1/10 ≤ (resizeClamped ⟨0, 0, 1/2, 1/2⟩ 1 (-5)).1 →
        cropInvariant (applyResize ⟨0, 0, 1/2, 1/2⟩ 1 (-5))) ∧
      1/10 ≤ (applyResize ⟨0, 0, 1/2, 1/2⟩ 1 (-5)).width) ∧
    cropInvariant (applyDrag ⟨0, 0, 1/2, 1/2⟩ (1/8) (-3)) ∧
    cropInvariant (applyResize ⟨0, 0, 1/2, 1/2⟩ 1 (1/8)) ∧
    1/10 ≤ (applyResize ⟨0, 0, 1/2, 1/2⟩ 1 (1/8)).width := by
  have h1 := C3_clamp_preserves_invariant ⟨0, 0, 1/2, 1/2⟩ 1 (-5) 7
    (by rw [cropInvariant_mk]; norm_num) (by norm_num)
  have h2 := C3_clamp_preserves_invariant ⟨0, 0, 1/2, 1/2⟩ 1 (1/8) (-3)
    (by rw [cropInvariant_mk]; norm_num) (by norm_num)
  exact ⟨h1, h2.1, h2.2.1 (by unfold resizeClamped; norm_num), h2.2.2⟩

/-- C9: the resize operation never alters the crop position — the x and y
fields of the produced crop are exactly those of the starting crop, for
every starting crop, aspect correction factor and delta. -/
theorem C9_resize_fixes_position (c : Crop) (k dx : ℚ) :
    (applyResize c k dx).x = c.x ∧ (applyResize c k dx).y = c.y :=
  ⟨rfl, rfl⟩

/-- C10: the preview cell background computation is total on crops with
width and height in (0, 1]: the scale factors are the guarded reciprocals,
the position is 0 whenever the crop spans the full axis (instead of
dividing by 1 − width = 0), and in the dividing branch the denominator is
strictly positive. -/
theorem C10_preview_bg_total (c : Crop) (hw0 : 0 < c.width)
    (hwle : c.width ≤ 1) (hh0 : 0 < c.height) (hhle : c.height ≤ 1) :
    bgScaleX c = 1 / c.width ∧ bgScaleY c = 1 / c.height ∧
    (1 ≤ c.width → bgPosX c = 0) ∧
    (c.width < 1 → 0 < 1 - c.width ∧ bgPosX c = c.x / (1 - c.width) * 100) ∧
    (1 ≤ c.height → bgPosY c = 0) ∧
    (c.height < 1 → 0 < 1 - c.height ∧ bgPosY c = c.y / (1 - c.height) * 100) := by
  refine ⟨?_, ?_, ?_, ?_, ?_, ?_⟩
  · unfold bgScaleX; rw [if_pos hw0]
  · unfold bgScaleY; rw [if_pos hh0]
  · intro h; unfold bgPosX; rw [if_pos h]
  · intro h
    exact ⟨by linarith, by unfold bgPosX; rw [if_neg (not_le.mpr h)]⟩
  · intro h; unfold bgPosY; rw [if_pos h]
  · intro h
    exact ⟨by linarith, by unfold bgPosY; rw [if_neg (not_le.mpr h)]⟩

/-- C10 witness: the full-image crop — both guards fire and no division by
the zero quantity 1 − width happens. -/
theorem C10_witness :
    bgScaleX ⟨0, 0, 1, 1⟩ = 1 / (⟨0, 0, 1, 1⟩ : Crop).width ∧
    bgScaleY ⟨0, 0, 1, 1⟩ = 1 / (⟨0, 0, 1, 1⟩ : Crop).height ∧
    (1 ≤ (⟨0, 0, 1, 1⟩ : Crop).width → bgPosX ⟨0, 0, 1, 1⟩ = 0) ∧
    ((⟨0, 0, 1, 1⟩ : Crop).width < 1 →
      0 < 1 - (⟨0, 0, 1, 1⟩ : Crop).width ∧
      bgPosX ⟨0, 0, 1, 1⟩ =
        (⟨0, 0, 1, 1⟩ : Crop).x / (1 - (⟨0, 0, 1, 1⟩ : Crop).width) * 100) ∧
    (1 ≤ (⟨0, 0, 1, 1⟩ : Crop).height → bgPosY ⟨0, 0, 1, 1⟩ = 0) ∧
    ((⟨0, 0, 1, 1⟩ : Crop).height < 1 →
      0 < 1 - (⟨0, 0, 1, 1⟩ : Crop).height ∧
      bgPosY ⟨0, 0, 1, 1⟩ =
        (⟨0, 0, 1, 1⟩ : Crop).y / (1 - (⟨0, 0, 1, 1⟩ : Crop).height) * 100) :=
  C10_preview_bg_total ⟨0, 0, 1, 1⟩ (by norm_num) (by norm_num) (by norm_num)
    (by norm_num)

/-- Helper: the page count emitted by the `generatePDF` loop equals the
ceiling formula with the one-page minimum. -/
theorem pdfPageCount_eq (ipp : ℕ) (hipp : 1 ≤ ipp) :
    ∀ n, pdfPageCount ipp n = max ((n + ipp - 1) / ipp) 1 := by
  intro n
  induction n with
  | zero =>
    have h1 : (0 + ipp - 1) / ipp = 0 := Nat.div_eq_of_lt (by omega)
    rw [pdfPageCount, h1]
    omega
  | succ n ih =>
    rw [pdfPageCount, ih]
    rcases Nat.eq_zero_or_pos n with h0 | hpos
    · subst h0
      have h1 : (0 + ipp - 1) / ipp = 0 := Nat.div_eq_of_lt (by omega)
      have h2 : (0 + 1 + ipp - 1) / ipp = 1 := by
        have : 0 + 1 + ipp - 1 = ipp := by omega
        rw [this, Nat.div_self (by omega)]
      have h3 : (0 : ℕ) / ipp = 0 := Nat.zero_div ipp
      rw [h1, h2]
      simp [h3]
    · have e1 : n + 1 + ipp - 1 = n + ipp := by omega
      have e2 : n + ipp - 1 = (n - 1) + ipp := by omega
      have f2 : (n + 1 + ipp - 1) / ipp = n / ipp + 1 := by
        rw [e1, Nat.add_div_right _ (by omega)]
      have f1 : (n + ipp - 1) / ipp = (n - 1) / ipp + 1 := by
        rw [e2, Nat.add_div_right _ (by omega)]
      have f3 : n / ipp = (n - 1) / ipp + if ipp ∣ n then 1 else 0 := by
        have hsub : n - 1 + 1 = n := by omega
        have := Nat.succ_div (n - 1) ipp
        rw [hsub] at this
        exact this
      rw [f1, f2]
      by_cases hdvd : ipp ∣ n
      · have hmod : n % ipp = 0 := Nat.mod_eq_zero_of_dvd hdvd
        have hle : ipp ≤ n := Nat.le_of_dvd hpos hdvd
        have hq : 0 < n / ipp := (Nat.one_le_div_iff (by omega)).mpr hle
        rw [if_pos ⟨hmod, hq⟩]
        rw [if_pos hdvd] at f3
        omega
      · have hmod : ¬ n % ipp = 0 := fun h => hdvd (Nat.dvd_of_mod_eq_zero h)
        have : ¬ (n % ipp = 0 ∧ 0 < n / ipp) := fun h => hmod h.1
        rw [if_neg this]
        rw [if_neg hdvd] at f3
        omega

/-- Helper: the page count of the raster exporter equals the same formula. -/
theorem pngPageCount_eq (ipp n : ℕ) (hipp : 1 ≤ ipp) :
    pngPageCount ipp n = max ((n + ipp - 1) / ipp) 1 := by
  unfold pngPageCount
  rcases Nat.eq_zero_or_pos n with h0 | hpos
  · subst h0
    have h1 : (0 + ipp - 1) / ipp = 0 := Nat.div_eq_of_lt (by omega)
    have h2 : max 0 1 + (ipp - 1) = ipp := by omega
    rw [h2, Nat.div_self (by omega), h1]
    omega
  · have h1 : max n 1 = n := by omega
    have h2 : n + (ipp - 1) = n + ipp - 1 := by omega
    have h3 : 1 ≤ (n + ipp - 1) / ipp :=
      (Nat.one_le_div_iff (by omega)).mpr (by omega)
    rw [h1, h2]
    omega

/-- C4: photos are assigned to pages by flat index — page ⌊i/(rows·cols)⌋,
row ⌊(i mod rows·cols)/cols⌋, column (i mod rows·cols) mod cols — and both
exporters emit ⌈n/(rows·cols)⌉ pages with a minimum of one page for n = 0;
in particular 7 photos in a 3 × 2 grid produce 2 pages, the seventh photo
landing on the second page at row 0, column 0. -/
theorem C4_pagination (rows cols n i : ℕ) (hr : 1 ≤ rows) (hc : 1 ≤ cols) :
    photoPage (rows * cols) i = i / (rows * cols) ∧
    photoRow cols (rows * cols) i = (i % (rows * cols)) / cols ∧
    photoCol cols (rows * cols) i = (i % (rows * cols)) % cols ∧
    pdfPageCount (rows * cols) n = max ((n + rows * cols - 1) / (rows * cols)) 1 ∧
    pngPageCount (rows * cols) n = max ((n + rows * cols - 1) / (rows * cols)) 1 ∧
    pdfPageCount (rows * cols) 0 = 1 ∧
    pdfPageCount 6 7 = 2 ∧ pngPageCount 6 7 = 2 ∧
    photoPage 6 6 = 1 ∧ photoRow 2 6 6 = 0 ∧ photoCol 2 6 6 = 0 := by
  have hipp : 1 ≤ rows * cols := Nat.one_le_iff_ne_zero.mpr (by positivity)
  refine ⟨rfl, rfl, rfl, pdfPageCount_eq _ hipp n, pngPageCount_eq _ n hipp,
    rfl, by decide, by decide, by decide, by decide, by decide⟩

/-- C4 witness: the 3 × 2 grid with 7 photos, looking at photo index 6. -/
theorem C4_witness :
    photoPage (3 * 2) 6 = 6 / (3 * 2) ∧
    photoRow 2 (3 * 2) 6 = (6 % (3 * 2)) / 2 ∧
    photoCol 2 (3 * 2) 6 = (6 % (3 * 2)) % 2 ∧
    pdfPageCount (3 * 2) 7 = max ((7 + 3 * 2 - 1) / (3 * 2)) 1 ∧
    pngPageCount (3 * 2) 7 = max ((7 + 3 * 2 - 1) / (3 * 2)) 1 ∧
    pdfPageCount (3 * 2) 0 = 1 ∧
    pdfPageCount 6 7 = 2 ∧ pngPageCount 6 7 = 2 ∧
    photoPage 6 6 = 1 ∧ photoRow 2 6 6 = 0 ∧ photoCol 2 6 6 = 0 :=
  C4_pagination 3 2 7 6 (by norm_num) (by norm_num)

/-- Helper: the default A4 portrait 3 × 2 settings resolve to the cell
rectangle x 15, y 15, 85 × 247/3 mm (for row 0, column 0). -/
theorem cellRect_A4_default :
    cellRectOfSettings INITIAL_SETTINGS 0 0 = some ⟨15, 15, 85, 247/3⟩ := by
  have h1 : ¬ (("A4" : String) = "Custom") := by decide
  unfold cellRectOfSettings resolvePaperMm PAPER_SIZES INITIAL_SETTINGS
  dsimp only
  rw [if_neg h1, if_pos rfl]
  unfold normalizeDoc gridCellRect
  norm_num [min_def, max_def, Rect.mk.injEq]

/-- C5: the grid cell rectangle at row r, column c has the claimed width,
height and position formulas, and the A4 portrait, 3 × 2, 10mm gap, 15mm
padding scenario yields cellWidth 85mm and cellHeight 82.33mm within 0.01. -/
theorem C5_cell_rect_formula (docW docH padH padV gap : ℚ)
    (rows cols r c : ℕ) (hr : 1 ≤ rows) (hc : 1 ≤ cols) :
    (gridCellRect docW docH padH padV gap rows cols r c).w =
      (docW - 2 * padH - gap * ((cols : ℚ) - 1)) / cols ∧
    (gridCellRect docW docH padH padV gap rows cols r c).h =
      (docH - 2 * padV - gap * ((rows : ℚ) - 1)) / rows ∧
    (gridCellRect docW docH padH padV gap rows cols r c).x =
      padH + c * ((docW - 2 * padH - gap * ((cols : ℚ) - 1)) / cols + gap) ∧
    (gridCellRect docW docH padH padV gap rows cols r c).y =
      padV + r * ((docH - 2 * padV - gap * ((rows : ℚ) - 1)) / rows + gap) ∧
    cellRectOfSettings INITIAL_SETTINGS 0 0 = some ⟨15, 15, 85, 247/3⟩ ∧
    |(247 : ℚ)/3 - 8233/100| < 1/100 := by
  unfold gridCellRect
  dsimp only
  refine ⟨by ring, by ring, by ring, by ring, cellRect_A4_default, by
    rw [abs_lt]; norm_num⟩

/-- C5 witness: the A4 portrait scenario of the claim. -/
theorem C5_witness :
    (gridCellRect 210 297 15 15 10 3 2 0 0).w = 85 ∧
    (gridCellRect 210 297 15 15 10 3 2 0 0).h = 247/3 ∧
    cellRectOfSettings INITIAL_SETTINGS 0 0 = some ⟨15, 15, 85, 247/3⟩ ∧
    |(247 : ℚ)/3 - 8233/100| < 1/100 := by
  have h := C5_cell_rect_formula 210 297 15 15 10 3 2 0 0 (by norm_num)
    (by norm_num)
  refine ⟨?_, ?_, h.2.2.2.2.1, h.2.2.2.2.2⟩
  · rw [h.1]; norm_num
  · rw [h.2.1]; norm_num

/-- C1: the per-cell image geometry of the live preview does NOT match the
exporters. At the default settings (A4 portrait, 3 × 2, polaroid, caption
space 25mm, ratio 1:1; cell 85 × 247/3 mm) the PDF and PNG exporters agree
with each other (the PNG rectangle is the PDF one at 8 px/mm), but the
preview — 6% side margin and caption band max(20, 0.20·height) versus the
exporters' 5% margin and captionSpaceMm band — places the image 0.85mm
further in and makes it 4.15mm smaller, far beyond floating rounding. -/
theorem C1_preview_exporter_geometry_mismatch :
    cellRectOfSettings INITIAL_SETTINGS 0 0 = some ⟨15, 15, 85, 247/3⟩ ∧
    pdfImageRect INITIAL_SETTINGS 85 (247/3) = ⟨383/24, 17/4, 637/12, 637/12⟩ ∧
    pngImageRect INITIAL_SETTINGS 85 (247/3) = ⟨383/3, 34, 1274/3, 1274/3⟩ ∧
    previewImageRect INITIAL_SETTINGS 85 (247/3) =
      ⟨833/60, 51/10, 1717/30, 1717/30⟩ ∧
    (pngImageRect INITIAL_SETTINGS 85 (247/3)).x =
      8 * (pdfImageRect INITIAL_SETTINGS 85 (247/3)).x ∧
    (pngImageRect INITIAL_SETTINGS 85 (247/3)).w =
      8 * (pdfImageRect INITIAL_SETTINGS 85 (247/3)).w ∧
    previewImageRect INITIAL_SETTINGS 85 (247/3) ≠
      pdfImageRect INITIAL_SETTINGS 85 (247/3) ∧
    (previewImageRect INITIAL_SETTINGS 85 (247/3)).w -
      (pdfImageRect INITIAL_SETTINGS 85 (247/3)).w = 83/20 := by
  have hpdf : pdfImageRect INITIAL_SETTINGS 85 (247/3) =
      ⟨383/24, 17/4, 637/12, 637/12⟩ := by
    unfold pdfImageRect INITIAL_SETTINGS aspectFit ratioValue
    norm_num [Rect.mk.injEq]
  have hpng : pngImageRect INITIAL_SETTINGS 85 (247/3) =
      ⟨383/3, 34, 1274/3, 1274/3⟩ := by
    unfold pngImageRect INITIAL_SETTINGS aspectFit ratioValue
    norm_num [Rect.mk.injEq]
  have hprev : previewImageRect INITIAL_SETTINGS 85 (247/3) =
      ⟨833/60, 51/10, 1717/30, 1717/30⟩ := by
    unfold previewImageRect INITIAL_SETTINGS aspectFit ratioValue
    norm_num [Rect.mk.injEq, max_def]
  refine ⟨cellRect_A4_default, hpdf, hpng, hprev, ?_, ?_, ?_, ?_⟩
  · rw [hpdf, hpng]; norm_num
  · rw [hpdf, hpng]; norm_num
  · rw [hpdf, hprev]
    norm_num [Rect.mk.injEq]
  · rw [hpdf, hprev]
    norm_num

/-- C6: for any settings whose paper-size key is none of A4, Letter, 4x6,
Custom, the export fails with the config error — no document dimensions
and no draw ops are ever produced — while the Custom key always resolves
to the user-provided custom width and height instead of the lookup table. -/
theorem C6_unknown_paper_key_fails (s : Settings) (photos : List PhotoM)
    (h : s.paperSize ≠ "A4" ∧ s.paperSize ≠ "Letter" ∧
      s.paperSize ≠ "4x6" ∧ s.paperSize ≠ "Custom") :
    generatePDFRun s photos = .error .configError ∧
    (∀ out, generatePDFRun s photos ≠ .ok out) ∧
    (∀ s2 : Settings, s2.paperSize = "Custom" →
      resolvePaperMm s2 = some (s2.customPaperWidth, s2.customPaperHeight)) := by
  obtain ⟨h1, h2, h3, h4⟩ := h
  have hnone : resolvePaperMm s = none := by
    unfold resolvePaperMm PAPER_SIZES
    rw [if_neg h4, if_neg h1, if_neg h2, if_neg h3, if_neg h4]
  have herr : generatePDFRun s photos = .error .configError := by
    unfold generatePDFRun
    rw [hnone]
  refine ⟨herr, ?_, ?_⟩
  · intro out hok
    rw [herr] at hok
    exact Except.noConfusion hok
  · intro s2 hs2
    unfold resolvePaperMm
    rw [if_pos hs2]

/-- C6 witness: paper-size key B5 (not in the table) fails the export. -/
theorem C6_witness :
    generatePDFRun { INITIAL_SETTINGS with paperSize := "B5" } [] =
      .error .configError ∧
    (∀ out, generatePDFRun { INITIAL_SETTINGS with paperSize := "B5" } [] ≠
      .ok out) ∧
    (∀ s2 : Settings, s2.paperSize = "Custom" →
      resolvePaperMm s2 = some (s2.customPaperWidth, s2.customPaperHeight)) :=
  C6_unknown_paper_key_fails { INITIAL_SETTINGS with paperSize := "B5" } []
    ⟨by decide, by decide, by decide, by decide⟩

/-- Helper: each entry of the exporter's per-photo output is exactly the
cell ops of the corresponding photo. -/
theorem generatePDFOps_getD (s : Settings) (photos : List PhotoM) (j : ℕ)
    (hj : j < photos.length) :
    (generatePDFOps s photos).getD j [] =
      cellOps s (photos.getD j defaultPhotoM) := by
  unfold generatePDFOps
  rw [List.getD_eq_getElem?_getD, List.getD_eq_getElem?_getD,
    List.getElem?_map, List.getElem?_eq_getElem hj]
  rfl

/-- C7: a photo whose image failed to load (loaded width 0) yields a cell
with no image op, while the background (when not transparent and not
borderless) and the caption (when configured for polaroid) are still
drawn, and every other photo of the batch is still processed normally —
the output has one entry per photo. -/
theorem C7_failed_photo_is_isolated (s : Settings) (photos : List PhotoM)
    (i : ℕ) (hi : i < photos.length)
    (hfail : (photos.getD i defaultPhotoM).loadedWidth = 0) :
    (generatePDFOps s photos).length = photos.length ∧
    DrawOp.image ∉ (generatePDFOps s photos).getD i [] ∧
    ((¬ isTransparentBg s.backgroundColor ∧ s.style ≠ CardStyle.borderless) →
      DrawOp.bgRect ∈ (generatePDFOps s photos).getD i []) ∧
    ((s.showCaptions = true ∧ (photos.getD i defaultPhotoM).caption ≠ "" ∧
        s.style = CardStyle.polaroid) →
      DrawOp.captionText ((photos.getD i defaultPhotoM).caption) ∈
        (generatePDFOps s photos).getD i []) ∧
    (∀ j, j < photos.length →
      (generatePDFOps s photos).getD j [] =
        cellOps s (photos.getD j defaultPhotoM)) := by
  have hlen : (generatePDFOps s photos).length = photos.length :=
    List.length_map _ _
  have hops := generatePDFOps_getD s photos i hi
  refine ⟨hlen, ?_, ?_, ?_, fun j hj => generatePDFOps_getD s photos j hj⟩
  · rw [hops]
    unfold cellOps
    rw [hfail]
    split_ifs <;> simp_all
  · intro hcond
    rw [hops]
    unfold cellOps
    rw [if_pos hcond]
    simp
  · intro hcond
    rw [hops]
    unfold cellOps
    rw [if_pos hcond]
    simp

/-- C7 witness: two photos, the first failed to load, polaroid default
settings with a non-empty caption on the failed photo. -/
theorem C7_witness :
    (generatePDFOps INITIAL_SETTINGS
      [⟨0, "praia", ⟨0, 0, 1, 1⟩⟩, ⟨100, "sol", ⟨0, 0, 1, 1⟩⟩]).length =
      ([⟨0, "praia", ⟨0, 0, 1, 1⟩⟩, ⟨100, "sol", ⟨0, 0, 1, 1⟩⟩] :
        List PhotoM).length ∧
    DrawOp.image ∉ (generatePDFOps INITIAL_SETTINGS
      [⟨0, "praia", ⟨0, 0, 1, 1⟩⟩, ⟨100, "sol", ⟨0, 0, 1, 1⟩⟩]).getD 0 [] ∧
    ((¬ isTransparentBg INITIAL_SETTINGS.backgroundColor ∧
        INITIAL_SETTINGS.style ≠ CardStyle.borderless) →
      DrawOp.bgRect ∈ (generatePDFOps INITIAL_SETTINGS
        [⟨0, "praia", ⟨0, 0, 1, 1⟩⟩, ⟨100, "sol", ⟨0, 0, 1, 1⟩⟩]).getD 0 []) ∧
    ((INITIAL_SETTINGS.showCaptions = true ∧
        (([⟨0, "praia", ⟨0, 0, 1, 1⟩⟩, ⟨100, "sol", ⟨0, 0, 1, 1⟩⟩] :
          List PhotoM).getD 0 defaultPhotoM).caption ≠ "" ∧
        INITIAL_SETTINGS.style = CardStyle.polaroid) →
      DrawOp.captionText ((([⟨0, "praia", ⟨0, 0, 1, 1⟩⟩,
          ⟨100, "sol", ⟨0, 0, 1, 1⟩⟩] :
          List PhotoM).getD 0 defaultPhotoM).caption) ∈
        (generatePDFOps INITIAL_SETTINGS
          [⟨0, "praia", ⟨0, 0, 1, 1⟩⟩, ⟨100, "sol", ⟨0, 0, 1, 1⟩⟩]).getD 0 []) ∧
    (∀ j, j < ([⟨0, "praia", ⟨0, 0, 1, 1⟩⟩, ⟨100, "sol", ⟨0, 0, 1, 1⟩⟩] :
        List PhotoM).length →
      (generatePDFOps INITIAL_SETTINGS
        [⟨0, "praia", ⟨0, 0, 1, 1⟩⟩, ⟨100, "sol", ⟨0, 0, 1, 1⟩⟩]).getD j [] =
        cellOps INITIAL_SETTINGS
          (([⟨0, "praia", ⟨0, 0, 1, 1⟩⟩, ⟨100, "sol", ⟨0, 0, 1, 1⟩⟩] :
            List PhotoM).getD j defaultPhotoM)) :=
  C7_failed_photo_is_isolated INITIAL_SETTINGS
    [⟨0, "praia", ⟨0, 0, 1, 1⟩⟩, ⟨100, "sol", ⟨0, 0, 1, 1⟩⟩] 0
    (by norm_num) rfl

/-- C8 counterexample: with a missing API credential the caption operation
returns the placeholder string "Legenda (API Key Missing)", not the empty
string the claim promises — even when the service call itself would have
succeeded. -/
theorem C8_cex_missing_key_placeholder :
    generateCaption "" (Except.ok (some "tarde dourada")) =
      "Legenda (API Key Missing)" ∧
    generateCaption "" (Except.ok (some "tarde dourada")) ≠ "" := by
  constructor
  · rfl
  · intro h
    rw [show generateCaption "" (Except.ok (some "tarde dourada")) =
      "Legenda (API Key Missing)" from rfl] at h
    exact absurd h (by decide)

/-- C8 (amended): with a credential present, the caption operation returns
the empty string on an unreachable/erroring service and on a missing
response text, and the trimmed response text otherwise; with a missing
credential it returns the fixed placeholder "Legenda (API Key Missing)"
instead of the empty string. In every case it returns a string — it never
throws into the caller. -/
theorem C8_caption_failure_policy (apiKey : String)
    (svc : Except Unit (Option String)) (hk : apiKey ≠ "") :
    (∀ e, svc = Except.error e → generateCaption apiKey svc = "") ∧
    (svc = Except.ok none → generateCaption apiKey svc = "") ∧
    (∀ t, svc = Except.ok (some t) →
      generateCaption apiKey svc = t.trim) ∧
    (∀ svc2, generateCaption "" svc2 = "Legenda (API Key Missing)") := by
  refine ⟨?_, ?_, ?_, ?_⟩
  · intro e he
    subst he
    unfold generateCaption
    rw [if_neg hk]
  · intro he
    subst he
    unfold generateCaption
    rw [if_neg hk]
  · intro t ht
    subst ht
    unfold generateCaption
    rw [if_neg hk]
    dsimp only
    by_cases h : t.trim = ""
    · rw [if_pos h, h]
    · rw [if_neg h]
  · intro svc2
    unfold generateCaption
    rw [if_pos rfl]

/-- C8 witness: a present credential with an erroring service call. -/
theorem C8_witness :
    (∀ e, (Except.error () : Except Unit (Option String)) = Except.error e →
      generateCaption "chave" (Except.error ()) = "") ∧
    ((Except.error () : Except Unit (Option String)) = Except.ok none →
      generateCaption "chave" (Except.error ()) = "") ∧
    (∀ t, (Except.error () : Except Unit (Option String)) =
        Except.ok (some t) →
      generateCaption "chave" (Except.error ()) = t.trim) ∧
    (∀ svc2, generateCaption "" svc2 = "Legenda (API Key Missing)") :=
  C8_caption_failure_policy "chave" (Except.error ()) (by decide)
